import Mathlib

/-
Verification of the Bedrock instrumentation module
(packages/opentelemetry-instrumentation-bedrock/opentelemetry/instrumentation/bedrock/__init__.py).

The module is a tracing shim around the boto3 bedrock-runtime client: it wraps
botocore ClientCreator.create_client, and on bedrock-runtime clients replaces
invoke_model with a version that opens a span around the call and annotates it
with vendor-specific request and response attributes.

The embedding below is a shallow model of that module.  Python values that the
module inspects are modelled with a small JSON value type; Python exceptions
are modelled with an explicit error type and Except; the in-place consumption
of the botocore StreamingBody is modelled by returning the post-state of the
response.  json.loads is an external collaborator and is passed in as a
parameter (loads); its behaviour on a None argument (a TypeError) is fixed,
because that part is determined by the Python standard library.
-/

/-- A JSON-like value, the shape of request and response bodies after
json.loads.  Numeric values pass through the instrumentation uninterpreted
(they are only copied into span attributes), so they are carried as integers
here without loss for the properties under study. -/
inductive JValue where
  | null
  | str (s : String)
  | num (n : Int)
  | bool (b : Bool)
  | arr (xs : List JValue)
  | obj (fields : List (String × JValue))
deriving Repr

/-- Python exceptions that the module can raise or propagate. -/
inductive PyErr where
  | nameError (n : String)
  | typeError
  | valueError
  | jsonDecodeError
  | attributeError
  | clientError (msg : String)
deriving Repr, DecidableEq

/-- Span kinds of the tracing API (only CLIENT is used by the module). -/
inductive SpanKind where
  | client
  | server
  | internal
deriving Repr, DecidableEq

/-- Observable tracing events emitted during one instrumented invoke_model
call: the span being started, the wrapped client function being called, and
the span being ended (the with-statement ends the span on every exit path,
normal or exceptional). -/
inductive Event where
  | spanStart (name : String) (kind : SpanKind)
  | clientCall
  | spanEnd
deriving Repr, DecidableEq

/- Attribute-name constants from the external opentelemetry.semconv.ai
package (SpanAttributes).  The exact strings are those of the external
package; the claims only depend on them being fixed distinct names. -/
namespace SpanAttributes

def LLM_VENDOR : String := "llm.vendor"

def LLM_REQUEST_TYPE : String := "llm.request.type"

def LLM_REQUEST_MODEL : String := "llm.request.model"

def LLM_TEMPERATURE : String := "llm.temperature"

def LLM_TOP_P : String := "llm.top_p"

def LLM_REQUEST_MAX_TOKENS : String := "llm.request.max_tokens"

def LLM_PROMPTS : String := "llm.prompts"

def LLM_COMPLETIONS : String := "llm.completions"

end SpanAttributes

/-- LLMRequestTypeValues.COMPLETION.value from the external semconv package. -/
def LLMRequestTypeValues_COMPLETION : String := "completion"

/-- Python dict.get on a JSON object body: first binding of the key, or None. -/
def dictGet (d : List (String × JValue)) (k : String) : Option JValue :=
  (d.find? (fun p => p.1 == k)).map (fun p => p.2)

/-- Python str.lower restricted to ASCII letters, which covers the
configuration values compared here (the variable is compared against the
ASCII word true). -/
def pyLower (s : String) : String :=
  String.mk (s.data.map Char.toLower)

/-- Source lines 37-40, should_send_prompts.
Python: (os.getenv("TRACELOOP_TRACE_CONTENT") or "true").lower() == "true"
        or context_api.get_value("override_enable_content_tracing").
os.getenv returns None when the variable is unset; `x or "true"` substitutes
"true" when x is None or the empty string (both falsy).  The context value is
modelled by its truthiness. -/
def should_send_prompts (envTraceContent : Option String) (overrideEnable : Bool) : Bool :=
  (pyLower (match envTraceContent with
    | none => "true"
    | some s => if s = "" then "true" else s) == "true")
  || overrideEnable

/-- Source lines 43-47, _set_span_attribute: set the attribute only when the
value is not None and not the empty string.  The span attribute map is
modelled as an append-ordered association list. -/
def _set_span_attribute (attrs : List (String × JValue)) (name : String)
    (value : Option JValue) : List (String × JValue) :=
  match value with
  | none => attrs
  | some (JValue.str "") => attrs
  | some v => attrs ++ [(name, v)]

/-- Source lines 130-134, _set_cohere_span_attributes. -/
def _set_cohere_span_attributes (attrs : List (String × JValue))
    (request_body : List (String × JValue)) : List (String × JValue) :=
  let attrs := _set_span_attribute attrs SpanAttributes.LLM_REQUEST_TYPE
    (some (JValue.str LLMRequestTypeValues_COMPLETION))
  let attrs := _set_span_attribute attrs SpanAttributes.LLM_TOP_P (dictGet request_body "p")
  let attrs := _set_span_attribute attrs SpanAttributes.LLM_TEMPERATURE
    (dictGet request_body "temperature")
  _set_span_attribute attrs SpanAttributes.LLM_REQUEST_MAX_TOKENS
    (dictGet request_body "max_tokens")

/-- Source lines 136-140, _set_anthropic_span_attributes. -/
def _set_anthropic_span_attributes (attrs : List (String × JValue))
    (request_body : List (String × JValue)) : List (String × JValue) :=
  let attrs := _set_span_attribute attrs SpanAttributes.LLM_REQUEST_TYPE
    (some (JValue.str LLMRequestTypeValues_COMPLETION))
  let attrs := _set_span_attribute attrs SpanAttributes.LLM_TOP_P (dictGet request_body "top_p")
  let attrs := _set_span_attribute attrs SpanAttributes.LLM_TEMPERATURE
    (dictGet request_body "temperature")
  _set_span_attribute attrs SpanAttributes.LLM_REQUEST_MAX_TOKENS
    (dictGet request_body "max_tokens_to_sample")

/-- Source lines 142-146, _set_ai21_span_attributes. -/
def _set_ai21_span_attributes (attrs : List (String × JValue))
    (request_body : List (String × JValue)) : List (String × JValue) :=
  let attrs := _set_span_attribute attrs SpanAttributes.LLM_REQUEST_TYPE
    (some (JValue.str LLMRequestTypeValues_COMPLETION))
  let attrs := _set_span_attribute attrs SpanAttributes.LLM_TOP_P (dictGet request_body "topP")
  let attrs := _set_span_attribute attrs SpanAttributes.LLM_TEMPERATURE
    (dictGet request_body "temperature")
  _set_span_attribute attrs SpanAttributes.LLM_REQUEST_MAX_TOKENS
    (dictGet request_body "maxTokens")

/-- Source lines 148-152, _set_llama_span_attributes. -/
def _set_llama_span_attributes (attrs : List (String × JValue))
    (request_body : List (String × JValue)) : List (String × JValue) :=
  let attrs := _set_span_attribute attrs SpanAttributes.LLM_REQUEST_TYPE
    (some (JValue.str LLMRequestTypeValues_COMPLETION))
  let attrs := _set_span_attribute attrs SpanAttributes.LLM_TOP_P (dictGet request_body "top_p")
  let attrs := _set_span_attribute attrs SpanAttributes.LLM_TEMPERATURE
    (dictGet request_body "temperature")
  _set_span_attribute attrs SpanAttributes.LLM_REQUEST_MAX_TOKENS
    (dictGet request_body "max_gen_len")

/-- Model of the botocore StreamingBody: an HTTP response stream with the
chunks not yet read.  Reading it consumes it in place. -/
structure StreamingBody where
  remaining : List String
deriving Repr, DecidableEq

/-- StreamingBody.iter_chunks of botocore: yields every remaining chunk in
order and leaves the stream exhausted.  The post-state is returned
explicitly because the Python object is mutated in place. -/
def StreamingBody.iter_chunks (b : StreamingBody) : List String × StreamingBody :=
  (b.remaining, { remaining := [] })

/-- The invoke_model response dict as far as the module touches it: the
mapping holds the streamed body under the key body (the module reads it with
response.get, and every bedrock-runtime response carries it). -/
structure BedrockResponse where
  body : StreamingBody
deriving Repr, DecidableEq

/-- json.loads lifted to an optional argument: json.loads(None) raises
TypeError in the Python standard library; on a present string the external
parser (the parameter loads) decides. -/
def pyLoads (loads : String → Except PyErr JValue) : Option String → Except PyErr JValue
  | none => Except.error PyErr.typeError
  | some s => loads s

/-- The chunk-accumulation loop of _get_body (source lines 116-121):
buffer starts as None, the first chunk replaces it, every later chunk is
appended on the right. -/
def bufferConcat (chunks : List String) : Option String :=
  chunks.foldl
    (fun acc chunk =>
      match acc with
      | none => some chunk
      | some b => some (b ++ chunk))
    none

/-- Source lines 115-128, _get_body: drain the streamed body into one buffer,
then parse it as JSON exactly for the accept content type application/json;
for application/xml, and for any other content type, fall through and return
None.  The first component of the result is the response after the stream has
been drained (the in-place effect of iter_chunks). -/
def _get_body (loads : String → Except PyErr JValue) (response : BedrockResponse)
    (content_type : Option String) : BedrockResponse × Except PyErr (Option JValue) :=
  let (chunks, body2) := response.body.iter_chunks
  let buffer := bufferConcat chunks
  let response2 : BedrockResponse := { response with body := body2 }
  if content_type = some "application/json" then
    (response2, (pyLoads loads buffer).map some)
  else if content_type = some "application/xml" then
    (response2, Except.ok none)
  else
    (response2, Except.ok none)

/-- The keyword arguments of an invoke_model call that the module reads
(each with kwargs.get, so each may be absent). -/
structure InvokeKwargs where
  modelId : Option String
  body : Option String
  accept : Option String
deriving Repr, DecidableEq

/-- The observable outcome of one instrumented invoke_model call: the
tracing events in order, the attributes set on the span in order, and the
value returned to the caller or the exception propagated. -/
structure InvokeResult where
  trace : List Event
  attrs : List (String × JValue)
  result : Except PyErr BedrockResponse
deriving Repr

/-- Source lines 78-113, the with_instrumentation closure produced by
_instrumented_model_invoke.  Inputs: the external JSON parser, whether the
span is recording, the call kwargs, and the outcome of the wrapped client
function fn (an fnResult of error models fn raising).

Control flow of the source, in order inside the with-statement:
  line 85: response = fn(*args, **kwargs); if fn raises, the with-statement
    ends the span and the exception propagates unchanged;
  line 86: request_body = json.loads(kwargs.get("body")); a parse failure
    (or a missing body kwarg, giving json.loads(None)) raises out of the
    span likewise;
  line 87: response_body = _get_body(response, kwargs.get("accept")); this
    drains the streamed body in place, and a parse failure raises;
  line 89: `if span.is_recording() and modelId:` — the name modelId is not
    defined anywhere in the module (the closure binds fn, tracer, args,
    kwargs, span, response, request_body, response_body, and no global
    or imported name supplies modelId).  When is_recording() is False the conjunction
    short-circuits and the block is skipped; when it is True, evaluating the
    bare name modelId raises NameError.  Lines 90-109 (vendor/model
    extraction, the per-vendor attribute setters, the prompt and completion
    attributes) are therefore unreachable on every execution, so no span
    attribute is ever set (attrs is always empty);
  line 111: return response — the same response object, whose streamed body
    _get_body has already drained.

The span is started before line 85 and ended on every exit path, so the
trace is the same on all branches. -/
def with_instrumentation (loads : String → Except PyErr JValue) (recording : Bool)
    (kwargs : InvokeKwargs) (fnResult : Except PyErr BedrockResponse) : InvokeResult :=
  { trace := [Event.spanStart "bedrock.completion" SpanKind.client,
              Event.clientCall, Event.spanEnd]
    attrs := []
    result :=
      match fnResult with
      | Except.error e => Except.error e
      | Except.ok response =>
        match pyLoads loads kwargs.body with
        | Except.error e => Except.error e
        | Except.ok _request_body =>
          match _get_body loads response kwargs.accept with
          | (_, Except.error e) => Except.error e
          | (response2, Except.ok _response_body) =>
            if recording then Except.error (PyErr.nameError "modelId")
            else Except.ok response2 }

/-- A botocore client as far as the module touches it: some identifying
payload, and whether its invoke_model method has been replaced by the
instrumented closure (source line 71). -/
structure BotoClient where
  clientId : String
  invoke_instrumented : Bool
deriving Repr, DecidableEq

/-- Source lines 63-75, _wrap around ClientCreator.create_client.  Inputs:
whether the suppress-instrumentation context key is set, the service_name
keyword argument, and the client the wrapped factory returns.  With the
suppress key set the wrapped factory result is returned directly; for
service_name equal to bedrock-runtime the created client has its
invoke_model replaced; otherwise the wrapped factory result is returned
unchanged.  No span is created here on any path. -/
def _wrap (suppress : Bool) (service_name : Option String)
    (wrappedResult : BotoClient) : BotoClient :=
  if suppress then wrappedResult
  else if service_name = some "bedrock-runtime" then
    { wrappedResult with invoke_instrumented := true }
  else wrappedResult

/-- A concrete external JSON parser used to evaluate the model on closed
inputs: every string parses to the empty JSON object.  The reachable control
flow never inspects the parsed value, so any concrete parser exercises it. -/
def demoLoads : String → Except PyErr JValue := fun _ => Except.ok (JValue.obj [])

/- Helper lemmas about the chunk-accumulation loop. -/

theorem bufferConcat_cons_aux (l : List String) (b : String) :
    List.foldl
      (fun acc chunk =>
        match acc with
        | none => some chunk
        | some x => some (x ++ chunk))
      (some b) l
      = some (List.foldl (fun a c => a ++ c) b l) := by
  induction l generalizing b with
  | nil => rfl
  | cons c l ih => exact ih (b ++ c)

/-- The accumulation loop computes the in-order concatenation of the chunks
(None exactly when there is no chunk at all). -/
theorem bufferConcat_eq (chunks : List String) :
    bufferConcat chunks
      = if chunks.isEmpty then none else some (String.join chunks) := by
  cases chunks with
  | nil => rfl
  | cons c l => exact bufferConcat_cons_aux l c

/- Claim theorems. -/

/-- Claim C2: every call through the instrumented invoke_model emits exactly
one span, named bedrock.completion with kind CLIENT, started before and
ended after the single wrapped client call, on every path (success, client
error, parse error, or the NameError of the recording branch). -/
theorem invoke_emits_exactly_one_span (loads : String → Except PyErr JValue)
    (recording : Bool) (kwargs : InvokeKwargs)
    (fnResult : Except PyErr BedrockResponse) :
    (with_instrumentation loads recording kwargs fnResult).trace
      = [Event.spanStart "bedrock.completion" SpanKind.client,
         Event.clientCall, Event.spanEnd] :=
  rfl

/-- Claim C4: _get_body drains and concatenates the streamed chunks in
order into one buffer; it hands that buffer to the JSON parser exactly when
the accept content type is application/json, and returns None for
application/xml and for every other content type. -/
theorem get_body_concats_then_parses_only_json (loads : String → Except PyErr JValue)
    (response : BedrockResponse) (ct : Option String) :
    (_get_body loads response ct).2
      = if ct = some "application/json"
        then (pyLoads loads
                (if response.body.remaining.isEmpty then none
                 else some (String.join response.body.remaining))).map some
        else Except.ok none := by
  by_cases h : ct = some "application/json"
  · simp [_get_body, StreamingBody.iter_chunks, bufferConcat_eq, h]
  · by_cases h2 : ct = some "application/xml" <;>
      simp [_get_body, StreamingBody.iter_chunks, bufferConcat_eq, h, h2]

/-- Claim C5: when the wrapped client function raises, the same error is
propagated to the caller unchanged; the instrumentation adds nothing on that
path (the span is still started and ended around the failed call, see the
trace theorem). -/
theorem invoke_propagates_client_error (loads : String → Except PyErr JValue)
    (recording : Bool) (kwargs : InvokeKwargs) (e : PyErr) :
    (with_instrumentation loads recording kwargs (Except.error e)).result
      = Except.error e :=
  rfl

/-- Claim C9: with the suppress-instrumentation context key set, _wrap
returns the wrapped factory result untouched: no client method is replaced
(and no span is created at any point of _wrap), for every service name
including bedrock-runtime. -/
theorem wrap_suppressed_returns_unchanged (service_name : Option String)
    (c : BotoClient) :
    _wrap true service_name c = c :=
  rfl

/-- Claim C10: for every create_client call whose service_name keyword
argument is not bedrock-runtime, _wrap returns exactly the wrapped factory
result with no modification. -/
theorem wrap_non_bedrock_returns_unchanged (suppress : Bool)
    (service_name : Option String) (c : BotoClient)
    (h : service_name ≠ some "bedrock-runtime") :
    _wrap suppress service_name c = c := by
  simp [_wrap, h]

/-- Witness for the claim C10 theorem at a concrete non-bedrock service. -/
theorem wrap_non_bedrock_returns_unchanged_witness :
    _wrap false (some "s3") { clientId := "client0", invoke_instrumented := false }
      = { clientId := "client0", invoke_instrumented := false } :=
  wrap_non_bedrock_returns_unchanged false (some "s3")
    { clientId := "client0", invoke_instrumented := false } (by decide)

/- Concrete inputs for evaluating the invoke path on closed calls.  The
request bodies are the JSON texts a real caller would pass; the response
streams carry one JSON chunk each. -/

def c1Kwargs : InvokeKwargs :=
  { modelId := some "anthropic.claude-v2"
    body := some "\x7b\"prompt\": \"Human: hi Assistant:\"\x7d"
    accept := some "application/json" }

def c1Response : BedrockResponse :=
  { body := { remaining := ["\x7b\"completion\": \"hello\"\x7d"] } }

/-- Claim C1 (code-bug evidence): on a call whose span is recording, the
instrumented invoke_model raises NameError on the undefined name modelId
(source line 89) before any attribute assignment runs, so the span never
receives the LLM_VENDOR or LLM_REQUEST_MODEL attributes the claim
describes: the call errors and the attribute list stays empty. -/
theorem c1_recording_call_raises_nameError_no_vendor_attrs :
    (with_instrumentation demoLoads true c1Kwargs (Except.ok c1Response)).result
        = Except.error (PyErr.nameError "modelId")
      ∧ (with_instrumentation demoLoads true c1Kwargs (Except.ok c1Response)).attrs = [] :=
  ⟨rfl, rfl⟩

def c3Kwargs : InvokeKwargs :=
  { modelId := some "cohere.command-text-v14"
    body := some "\x7b\"prompt\": \"tell me a joke\"\x7d"
    accept := some "application/json" }

def c3Response : BedrockResponse :=
  { body := { remaining := ["\x7b\"generations\": [\x7b\"text\": \"a joke\"\x7d]\x7d"] } }

/-- Claim C3 (code-bug evidence): with prompt tracing enabled (the default
environment) and a recording span, the call raises NameError at the guard of
source line 89, so lines 104-109 never run and neither the prompt attribute
nor any completion attribute is set. -/
theorem c3_no_prompt_or_completion_attrs_recorded :
    should_send_prompts none false = true
  ∧ (with_instrumentation demoLoads true c3Kwargs (Except.ok c3Response)).attrs = []
  ∧ (with_instrumentation demoLoads true c3Kwargs (Except.ok c3Response)).result
      = Except.error (PyErr.nameError "modelId") :=
  ⟨by decide, rfl, rfl⟩

def c6Kwargs : InvokeKwargs :=
  { modelId := some "cohere.command-text-v14"
    body := some "\x7b\"p\": 1, \"temperature\": 1, \"max_tokens\": 100, \"prompt\": \"hi\"\x7d"
    accept := some "application/json" }

def c6Response : BedrockResponse :=
  { body := { remaining := ["\x7b\"generations\": []\x7d"] } }

def c6CohereBody : List (String × JValue) :=
  [("p", JValue.num 1), ("temperature", JValue.num 1),
   ("max_tokens", JValue.num 100), ("prompt", JValue.str "hi")]

/-- Claim C6 (code-bug evidence): a recording cohere-model call raises
NameError at source line 89, so the vendor dispatch of lines 95-102 is
unreachable and no request-type, temperature, top-p or max-token attribute
is ever set.  Independently, the cohere attribute table itself (lines
130-134) does map the field names the claim lists (p, temperature,
max_tokens, and the completion request type), confirming the claim matches
the intended tables. -/
theorem c6_vendor_dispatch_unreachable :
    (with_instrumentation demoLoads true c6Kwargs (Except.ok c6Response)).result
        = Except.error (PyErr.nameError "modelId")
  ∧ (with_instrumentation demoLoads true c6Kwargs (Except.ok c6Response)).attrs = []
  ∧ _set_cohere_span_attributes [] c6CohereBody
      = [(SpanAttributes.LLM_REQUEST_TYPE, JValue.str "completion"),
         (SpanAttributes.LLM_TOP_P, JValue.num 1),
         (SpanAttributes.LLM_TEMPERATURE, JValue.num 1),
         (SpanAttributes.LLM_REQUEST_MAX_TOKENS, JValue.num 100)] :=
  ⟨rfl, rfl, rfl⟩

def c7Kwargs : InvokeKwargs :=
  { modelId := some "ai21.j2-mid-v1"
    body := some "\x7b\"prompt\": \"hello\"\x7d"
    accept := some "application/json" }

def c7Response : BedrockResponse :=
  { body := { remaining := ["\x7b\"completions\": []\x7d"] } }

/-- Claim C7 (code-bug evidence): on a successful (non-recording) call the
wrapper returns the response object only after _get_body has drained its
streamed body, so the caller receives an exhausted stream rather than the
stream an uninstrumented call would deliver (the itertools tee import that
could duplicate the stream is never used). -/
theorem c7_returned_stream_already_consumed :
    (with_instrumentation demoLoads false c7Kwargs (Except.ok c7Response)).result
        = Except.ok { body := { remaining := [] } }
      ∧ c7Response ≠ ({ body := { remaining := [] } } : BedrockResponse) :=
  ⟨rfl, by decide⟩

def c8Kwargs : InvokeKwargs :=
  { modelId := some "meta.llama2-13b-chat-v1"
    body := some "\x7b\"prompt\": \"hey\"\x7d"
    accept := some "application/json" }

def c8Response : BedrockResponse :=
  { body := { remaining := ["\x7b\"generation\": \"ho\"\x7d"] } }

/-- Claim C8 (code-bug evidence): with the environment variable unset and no
override, content tracing is enabled by default (should_send_prompts is
true) — and an empty-string value of the variable also counts as enabled —
yet a recording call records no prompt or completion attribute, because the
NameError of source line 89 pre-empts lines 104-109. -/
theorem c8_content_enabled_by_default_yet_nothing_recorded :
    should_send_prompts none false = true
  ∧ should_send_prompts (some "") false = true
  ∧ (with_instrumentation demoLoads true c8Kwargs (Except.ok c8Response)).attrs = []
  ∧ (with_instrumentation demoLoads true c8Kwargs (Except.ok c8Response)).result
      = Except.error (PyErr.nameError "modelId") :=
  ⟨by decide, by decide, rfl, rfl⟩
